import Mathlib

/-!
Verification development for the AVR_LIBRARY interrupt-driven UART driver
(`src/uart.c`).  The driver keeps, per serial channel, a transmit and a
receive circular buffer realized over module-level `unsigned char` arrays
with head/tail indices advanced modulo the buffer size (a power of two,
computed in the source as `x & (SIZE - 1)`).

The shallow embedding below mirrors the module variables of `uart.c` as one
record `Sys`, and each C function as a Lean function from `Sys` (plus the
values read from hardware registers, which are inputs) to `Sys` (plus the
returned value).  Writes to the hardware data registers `UART0_DATA` /
`UART1_DATA` are recorded as an append-only log (`UDR0` / `UDR1`), and the
transmit-interrupt-enable bits (`UDRIE` of `UART0_CONTROL` / `UART1_CONTROL`)
are modelled as the Booleans `UDRIE0` / `UDRIE1`; no other bit of the control
registers is touched by the buffer logic.  Bytes and indices are `Nat`
(C `unsigned char` values stay below 256 along all the operations modelled,
so no wrap-around beyond the explicit `&&&` masks occurs).

The buffer sizes `UART_RX_BUFFER_SIZE` / `UART_TX_BUFFER_SIZE` are set in
`uart.h`, which is not part of the sources; they are carried as parameters
`NR` / `NT`, required to be powers of two exactly as the preprocessor check
in `uart.c` demands.
-/

/-- The module variables of `uart.c` (lines 399-417): the two circular
buffers and their indices for each channel, the error latches, plus the
modelled hardware effects: `UDRIE0`/`UDRIE1` are the transmit-ready
interrupt-enable bits, `UDR0`/`UDR1` log every byte written to the
hardware data registers, in order. -/
structure Sys where
  UART_TxBuf : List Nat
  UART_RxBuf : List Nat
  UART_TxHead : Nat
  UART_TxTail : Nat
  UART_RxHead : Nat
  UART_RxTail : Nat
  UART_LastRxError : Nat
  uart0_received : Nat
  UART1_TxBuf : List Nat
  UART1_RxBuf : List Nat
  UART1_TxHead : Nat
  UART1_TxTail : Nat
  UART1_RxHead : Nat
  UART1_RxTail : Nat
  UART1_LastRxError : Nat
  uart1_received : Nat
  UDRIE0 : Bool
  UDRIE1 : Bool
  UDR0 : List Nat
  UDR1 : List Nat
  deriving Repr, DecidableEq

/-- Modelled from the spec: `uart.h` (not under `src/`) defines the
distinguished no-data result returned by `uart_getc`/`uart1_getc` when the
receive buffer is empty; the spec calls it "a sentinel value combined into
the same integer as the error flag", with the low byte as data and high
bits as flags, so it is a value with a nonzero high byte. -/
def UART_NO_DATA : Nat := 0x0100

/-- Modelled from the spec: `uart.h` (not under `src/`) defines the
receive-buffer-overflow classification stored (shifted down by 8) into the
error latch by the channel-1 receive interrupt; a flag in the high byte. -/
def UART_BUFFER_OVERFLOW : Nat := 0x0200

/-- `uart0_txpush` (uart.c:1231-1245): `push = (TxHead+1) & (NT-1)`;
if `TxTail != push` store `data` at `TxHead`, advance `TxHead`, return 1;
otherwise (buffer full) store the null byte 0x00 at index `push` and
return 0. -/
def uart0_txpush (NT : Nat) (data : Nat) (s : Sys) : Nat × Sys :=
  let push := (s.UART_TxHead + 1) &&& (NT - 1)
  if s.UART_TxTail ≠ push then
    (1, { s with UART_TxBuf := s.UART_TxBuf.set s.UART_TxHead data,
                 UART_TxHead := push })
  else
    (0, { s with UART_TxBuf := s.UART_TxBuf.set push 0 })

/-- `uart0_txpop` (uart.c:1246-1258): `pop = (TxTail+1) & (NT-1)`;
if `TxTail != TxHead` read the byte at `TxTail`, set `TxTail = pop`,
return the byte; otherwise return the null byte 0x00. -/
def uart0_txpop (NT : Nat) (s : Sys) : Nat × Sys :=
  let pop := (s.UART_TxTail + 1) &&& (NT - 1)
  if s.UART_TxTail ≠ s.UART_TxHead then
    (s.UART_TxBuf.getD s.UART_TxTail 0, { s with UART_TxTail := pop })
  else
    (0, s)

/-- `uart0_rxpush` (uart.c:1259-1273): same shape as `uart0_txpush` on the
receive buffer. -/
def uart0_rxpush (NR : Nat) (data : Nat) (s : Sys) : Nat × Sys :=
  let push := (s.UART_RxHead + 1) &&& (NR - 1)
  if s.UART_RxTail ≠ push then
    (1, { s with UART_RxBuf := s.UART_RxBuf.set s.UART_RxHead data,
                 UART_RxHead := push })
  else
    (0, { s with UART_RxBuf := s.UART_RxBuf.set push 0 })

/-- `uart0_rxpop` (uart.c:1274-1286): same shape as `uart0_txpop` on the
receive buffer. -/
def uart0_rxpop (NR : Nat) (s : Sys) : Nat × Sys :=
  let pop := (s.UART_RxTail + 1) &&& (NR - 1)
  if s.UART_RxTail ≠ s.UART_RxHead then
    (s.UART_RxBuf.getD s.UART_RxTail 0, { s with UART_RxTail := pop })
  else
    (0, s)

/-- `uart_getc` (uart.c:754-768): `tmptail = (RxTail+1) & (NR-1)`; if
`tmptail != RxHead` read the byte at `RxTail`, set `RxTail = tmptail` and
return `(UART_LastRxError << 8) + data`; otherwise return `UART_NO_DATA`.
Note the guard compares `tmptail` (not `RxTail`) with `RxHead`. -/
def uart_getc (NR : Nat) (s : Sys) : Nat × Sys :=
  let tmptail := (s.UART_RxTail + 1) &&& (NR - 1)
  if tmptail ≠ s.UART_RxHead then
    let data := s.UART_RxBuf.getD s.UART_RxTail 0
    ((s.UART_LastRxError <<< 8) + data, { s with UART_RxTail := tmptail })
  else
    (UART_NO_DATA, s)

/-- `uart_putc` (uart.c:777-795): push the byte via `uart0_txpush`; if the
push succeeded (nonzero return) set the `UDRIE` bit of `UART0_CONTROL`. -/
def uart_putc (NT : Nat) (data : Nat) (s : Sys) : Sys :=
  let r := uart0_txpush NT data s
  if r.1 ≠ 0 then { r.2 with UDRIE0 := true } else r.2

/-- `uart_available` (uart.c:834-837): returns
`(UART_RX_BUFFER_MASK + UART_RxHead - UART_RxTail) % UART_RX_BUFFER_MASK`
computed in C `int` arithmetic, where `UART_RX_BUFFER_MASK = NR - 1`
(the C `%` operator truncates toward zero, `Int.tmod`). -/
def uart_available (NR : Nat) (s : Sys) : Int :=
  (((NR : Int) - 1) + (s.UART_RxHead : Int) - (s.UART_RxTail : Int)).tmod
    ((NR : Int) - 1)

/-- `uart_flush` (uart.c:846-849): the single assignment
`UART_RxHead = UART_RxTail`. -/
def uart_flush (s : Sys) : Sys :=
  { s with UART_RxHead := s.UART_RxTail }

/-- The line-assembly accumulator part of `struct UART` / `struct UART1`
(declared in `uart.h`, not under `src/`): the write cursor `index` and the
character array `msg`, modelled as a total map so that a write at any index
is observable.  The configuration fields (`ubrr`, `FDbits`, `Stopbits`,
`Parity`) and the function-pointer fields of the C struct are not used by
the buffer logic and are omitted. -/
structure UART where
  index : Nat
  msg : Nat → Nat

/-- `uart_read` (uart.c:858-891), active code only: pop a byte with
`uart0_rxpop`; if it is nonzero store it at `msg[index]`, increment
`index`, and null-terminate at the new `index`; otherwise reset `index`
to 0.  (The C function returns the `msg` pointer; here the updated
accumulator is returned together with the updated module state.)
Note the active code has no bound check on `index`. -/
def uart_read (NR : Nat) (u : UART) (s : Sys) : UART × Sys :=
  let r := uart0_rxpop NR s
  if r.1 ≠ 0 then
    ({ index := u.index + 1,
       msg := Function.update (Function.update u.msg u.index r.1) (u.index + 1) 0 },
     r.2)
  else
    ({ u with index := 0 }, r.2)

/-- `UARTenable` (uart.c:468-741), the parts that act on the modelled
state: save `SREG` into `tSREG`, clear the global interrupt-enable bit
(`SREG &= ~(1<<7)`, on the 8-bit status register), reset the four channel-0
buffer indices and `uart0_received` to 0, and on exit execute
`SREG = tSREG; SREG |= (1<<GLOBAL_INTERRUPT_ENABLE);`.  The hardware
register configuration (baud divisor, frame format, receiver/transmitter
enables) and the construction of the returned `struct UART` write only
hardware registers and the fresh struct, not the modelled module state,
and are omitted.  Input: `SREG` value at entry; result: `SREG` value after
return, with the updated module state. -/
def UARTenable (sreg : Nat) (s : Sys) : Nat × Sys :=
  let tSREG := sreg
  let _sregInside := sreg &&& 0x7F
  let s' := { s with UART_TxHead := 0, UART_TxTail := 0,
                     UART_RxHead := 0, UART_RxTail := 0, uart0_received := 0 }
  let sregExit := tSREG ||| (1 <<< 7)
  (sregExit, s')

/-- `UART1enable` (uart.c:921-1061): same `SREG` discipline as
`UARTenable`, resetting the four channel-1 indices and `uart1_received`. -/
def UART1enable (sreg : Nat) (s : Sys) : Nat × Sys :=
  let tSREG := sreg
  let _sregInside := sreg &&& 0x7F
  let s' := { s with UART1_TxHead := 0, UART1_TxTail := 0,
                     UART1_RxHead := 0, UART1_RxTail := 0, uart1_received := 0 }
  let sregExit := tSREG ||| (1 <<< 7)
  (sregExit, s')

/-- `uart1_getc` (uart.c:1074-1093): if `RxHead == RxTail` return
`UART_NO_DATA`; otherwise `tmptail = (RxTail+1) & (NR-1)`, set
`RxTail = tmptail`, read the byte at index `tmptail` (the advanced index,
not the old tail), and return `(UART1_LastRxError << 8) + data`. -/
def uart1_getc (NR : Nat) (s : Sys) : Nat × Sys :=
  if s.UART1_RxHead = s.UART1_RxTail then
    (UART_NO_DATA, s)
  else
    let tmptail := (s.UART1_RxTail + 1) &&& (NR - 1)
    let data := s.UART1_RxBuf.getD tmptail 0
    ((s.UART1_LastRxError <<< 8) + data, { s with UART1_RxTail := tmptail })

/-- `uart1_available` (uart.c:1158-1161): same formula as
`uart_available` on the channel-1 indices. -/
def uart1_available (NR : Nat) (s : Sys) : Int :=
  (((NR : Int) - 1) + (s.UART1_RxHead : Int) - (s.UART1_RxTail : Int)).tmod
    ((NR : Int) - 1)

/-- `uart1_flush` (uart.c:1170-1173): the single assignment
`UART1_RxHead = UART1_RxTail`. -/
def uart1_flush (s : Sys) : Sys :=
  { s with UART1_RxHead := s.UART1_RxTail }

/-- `uart1_read` (uart.c:1182-1210): `tmptail = (RxTail+1) & (NR-1)`; if
the buffer is nonempty and `index < NR - 1`, advance `RxTail` to
`tmptail`, read the byte at `tmptail`, append it at `msg[index]`,
increment `index` and null-terminate; otherwise reset `index` to 0.
(The returned `char*` — `"empty"` vs `msg` — is not modelled.) -/
def uart1_read (NR : Nat) (u : UART) (s : Sys) : UART × Sys :=
  let tmptail := (s.UART1_RxTail + 1) &&& (NR - 1)
  if s.UART1_RxTail ≠ s.UART1_RxHead ∧ u.index < NR - 1 then
    let data := s.UART1_RxBuf.getD tmptail 0
    ({ index := u.index + 1,
       msg := Function.update (Function.update u.msg u.index data) (u.index + 1) 0 },
     { s with UART1_RxTail := tmptail })
  else
    ({ u with index := 0 }, s)

/-- `ISR(UART0_RECEIVE_INTERRUPT)` (uart.c:1297-1349), active code only:
the handler reads `UART0_STATUS` and masks the framing/overrun bits into
the local `lastRxError` (the masked value is the input `lastRxError`
here; the data register value is the input `data`).  If the
classification is nonzero it pushes the sentinel `'X'` (88) via
`uart0_rxpush`, otherwise it pushes the received byte.  The active code
never assigns the module variable `UART_LastRxError`. -/
def isr_uart0_receive (NR : Nat) (lastRxError data : Nat) (s : Sys) : Sys :=
  if lastRxError ≠ 0 then
    (uart0_rxpush NR 88 s).2
  else
    (uart0_rxpush NR data s).2

/-- `ISR(UART0_TRANSMIT_INTERRUPT)` (uart.c:1351-1380), active code only:
pop a byte with `uart0_txpop`; if it is nonzero write it to `UART0_DATA`
(logged in `UDR0`), otherwise clear the `UDRIE` bit of `UART0_CONTROL`. -/
def isr_uart0_transmit (NT : Nat) (s : Sys) : Sys :=
  let r := uart0_txpop NT s
  if r.1 ≠ 0 then
    { r.2 with UDR0 := r.2.UDR0 ++ [r.1] }
  else
    { r.2 with UDRIE0 := false }

/-- `SIGNAL(UART1_RECEIVE_INTERRUPT)` (uart.c:1386-1430): with the masked
framing/overrun classification `lastRxError` and the data register value
`data` as inputs, compute `tmphead = (UART1_RxHead+1) & (NR-1)`.  If
`tmphead == UART1_RxTail` the local classification becomes
`UART_BUFFER_OVERFLOW >> 8`; otherwise `UART1_RxHead` is advanced to
`tmphead` and the byte (`'X'` = 88 on error, else `data`) is stored at
index `tmphead` of `UART_RxBuf` — the channel-0 buffer, exactly as the
source writes it.  Finally `UART1_LastRxError` receives the (possibly
overwritten) classification. -/
def isr_uart1_receive (NR : Nat) (lastRxError data : Nat) (s : Sys) : Sys :=
  let tmphead := (s.UART1_RxHead + 1) &&& (NR - 1)
  if tmphead = s.UART1_RxTail then
    { s with UART1_LastRxError := UART_BUFFER_OVERFLOW >>> 8 }
  else
    let s' :=
      if lastRxError ≠ 0 then
        { s with UART1_RxHead := tmphead,
                 UART_RxBuf := s.UART_RxBuf.set tmphead 88 }
      else
        { s with UART1_RxHead := tmphead,
                 UART_RxBuf := s.UART_RxBuf.set tmphead data }
    { s' with UART1_LastRxError := lastRxError }

/-- `SIGNAL(UART1_TRANSMIT_INTERRUPT)` (uart.c:1432-1453): if
`UART1_TxHead != UART1_TxTail`, advance `UART1_TxTail` to
`(UART1_TxTail+1) & (NT-1)` and write the byte at the advanced index to
`UART1_DATA` (logged in `UDR1`); otherwise clear the `UDRIE` bit of
`UART1_CONTROL`. -/
def isr_uart1_transmit (NT : Nat) (s : Sys) : Sys :=
  if s.UART1_TxHead ≠ s.UART1_TxTail then
    let tmptail := (s.UART1_TxTail + 1) &&& (NT - 1)
    { s with UART1_TxTail := tmptail,
             UDR1 := s.UDR1 ++ [s.UART1_TxBuf.getD tmptail 0] }
  else
    { s with UDRIE1 := false }


/-
Concrete states used by the witnesses, counterexamples and evaluation
theorems below.  Field order follows the declaration order of `Sys`.
-/

/-- A state whose channel-0 transmit and receive buffers (capacity 4) are
both full: heads at 3, tails at 0, every slot holding a nonzero byte. -/
def fullTxRxState : Sys :=
  ⟨[65, 66, 67, 68], [11, 12, 13, 14], 3, 0, 3, 0, 0, 0,
   [], [], 0, 0, 0, 0, 0, 0, false, false, [], []⟩

/-- Claim C1 (as stated is false): with the capacity-4 transmit buffer
full (`(head + 1) mod 4 == tail`) and every slot nonzero, `uart0_txpush`
does return failure, yet the storage is not left unchanged: the slot at
index `tail` is overwritten. -/
theorem uart0_txpush_full_corrupts_storage_cex :
    (fullTxRxState.UART_TxHead + 1) % 4 = fullTxRxState.UART_TxTail ∧
    (uart0_txpush 4 99 fullTxRxState).1 = 0 ∧
    (uart0_txpush 4 99 fullTxRxState).2.UART_TxBuf ≠ fullTxRxState.UART_TxBuf := by
  decide

/-- Claim C1 (amended): for every power-of-two capacity and every full
buffer state (`(head + 1) mod N == tail`), `uart0_txpush` / `uart0_rxpush`
return failure and do not advance `head`, but overwrite the storage slot
at index `(head + 1) mod N` — which equals `tail`, the oldest queued
entry — with the null byte 0x00, leaving all other slots unchanged. -/
theorem uart0_push_on_full_fails_and_zeroes_tail_slot
    (NT NR kT kR data rdata : Nat) (s : Sys)
    (hNT : NT = 2 ^ kT) (hNR : NR = 2 ^ kR)
    (hfullT : (s.UART_TxHead + 1) % NT = s.UART_TxTail)
    (hfullR : (s.UART_RxHead + 1) % NR = s.UART_RxTail) :
    (uart0_txpush NT data s).1 = 0 ∧
    (uart0_txpush NT data s).2.UART_TxHead = s.UART_TxHead ∧
    (uart0_txpush NT data s).2.UART_TxBuf = s.UART_TxBuf.set s.UART_TxTail 0 ∧
    (uart0_rxpush NR rdata s).1 = 0 ∧
    (uart0_rxpush NR rdata s).2.UART_RxHead = s.UART_RxHead ∧
    (uart0_rxpush NR rdata s).2.UART_RxBuf = s.UART_RxBuf.set s.UART_RxTail 0 := by
  have hT : (s.UART_TxHead + 1) &&& (NT - 1) = s.UART_TxTail := by
    subst hNT; rw [Nat.and_pow_two_sub_one_eq_mod]; exact hfullT
  have hR : (s.UART_RxHead + 1) &&& (NR - 1) = s.UART_RxTail := by
    subst hNR; rw [Nat.and_pow_two_sub_one_eq_mod]; exact hfullR
  refine ⟨?_, ?_, ?_, ?_, ?_, ?_⟩ <;>
    simp [uart0_txpush, uart0_rxpush, hT, hR]

/-- Witness for the C1 theorem at the concrete full state. -/
theorem uart0_push_on_full_fails_and_zeroes_tail_slot_witness :
    (uart0_txpush 4 99 fullTxRxState).1 = 0 ∧
    (uart0_txpush 4 99 fullTxRxState).2.UART_TxHead = fullTxRxState.UART_TxHead ∧
    (uart0_txpush 4 99 fullTxRxState).2.UART_TxBuf
      = fullTxRxState.UART_TxBuf.set fullTxRxState.UART_TxTail 0 ∧
    (uart0_rxpush 4 55 fullTxRxState).1 = 0 ∧
    (uart0_rxpush 4 55 fullTxRxState).2.UART_RxHead = fullTxRxState.UART_RxHead ∧
    (uart0_rxpush 4 55 fullTxRxState).2.UART_RxBuf
      = fullTxRxState.UART_RxBuf.set fullTxRxState.UART_RxTail 0 :=
  uart0_push_on_full_fails_and_zeroes_tail_slot 4 4 2 2 99 55 fullTxRxState
    rfl rfl (by decide) (by decide)

/-- An empty channel-0 receive buffer (head == tail == 0) whose storage
happens to hold stale nonzero bytes. -/
def emptyRxState : Sys :=
  ⟨[], [65, 66, 67, 68], 0, 0, 0, 0, 0, 0,
   [], [], 0, 0, 0, 0, 0, 0, false, false, [], []⟩

/-- A channel-0 receive buffer holding exactly one queued byte
(head == 1, tail == 0, the byte 65 at index 0). -/
def oneByteRxState : Sys :=
  ⟨[], [65, 66, 67, 68], 0, 0, 1, 0, 0, 0,
   [], [], 0, 0, 0, 0, 0, 0, false, false, [], []⟩

/-- Claim C2: `uart_getc` evaluated at the failing inputs.  On the empty
buffer (head == tail) it does not return `UART_NO_DATA`: it returns the
stale byte at `tail` and advances `tail` (its guard compares
`(tail + 1) mod N`, not `tail`, with `head`).  Conversely, with exactly
one byte queued it returns `UART_NO_DATA` even though data is available.
`uart0_rxpop` at the same two states behaves as the claim demands. -/
theorem uart_getc_empty_check_bug_eval :
    emptyRxState.UART_RxHead = emptyRxState.UART_RxTail ∧
    (uart_getc 4 emptyRxState).1 = 65 ∧
    (uart_getc 4 emptyRxState).1 ≠ UART_NO_DATA ∧
    (uart_getc 4 emptyRxState).2.UART_RxTail = 1 ∧
    oneByteRxState.UART_RxHead ≠ oneByteRxState.UART_RxTail ∧
    (uart_getc 4 oneByteRxState).1 = UART_NO_DATA ∧
    (uart0_rxpop 4 emptyRxState).1 = 0 ∧
    (uart0_rxpop 4 emptyRxState).2 = emptyRxState ∧
    (uart0_rxpop 4 oneByteRxState).1 = 65 ∧
    (uart0_rxpop 4 oneByteRxState).2.UART_RxTail = 1 := by
  decide

/-- A state with 31 bytes queued in each channel receive buffer of
capacity 32: heads at 31, tails at 0. -/
def wrapAvailState : Sys :=
  ⟨[], [], 0, 0, 31, 0, 0, 0,
   [], [], 0, 0, 31, 0, 0, 0, false, false, [], []⟩

/-- Claim C3: `uart_available` / `uart1_available` evaluated at the
failing input.  With `N = 32`, `head = 31`, `tail = 0` there are
`(head - tail) mod N = 31` bytes queued, but the code computes
`(31 + 31 - 0) % 31 = 0`: the source takes the remainder by
`UART_RX_BUFFER_MASK` (N - 1) instead of the buffer size N. -/
theorem uart_available_mod_mask_bug_eval :
    uart_available 32 wrapAvailState = 0 ∧
    uart1_available 32 wrapAvailState = 0 ∧
    ((wrapAvailState.UART_RxHead : Int) - (wrapAvailState.UART_RxTail : Int)).emod 32
      = 31 := by
  decide

/-- The all-zero system state. -/
def zeroState : Sys :=
  ⟨[], [], 0, 0, 0, 0, 0, 0, [], [], 0, 0, 0, 0, 0, 0, false, false, [], []⟩

/-- Claim C4 (as stated is false): calling `UARTenable` with the global
interrupt-enable bit clear at entry (SREG = 0) returns with the bit set:
the epilogue executes `SREG = tSREG` and then unconditionally
`SREG |= (1 << 7)`. -/
theorem UARTenable_forces_interrupts_on_cex :
    (0 : Nat).testBit 7 = false ∧
    ((UARTenable 0 zeroState).1).testBit 7 = true ∧
    ((UART1enable 0 zeroState).1).testBit 7 = true := by
  decide

/-- Claim C4 (amended): for every entry SREG value and state, `UARTenable`
(resp. `UART1enable`) resets the four channel buffer indices to 0, and on
exit writes back the saved SREG and then unconditionally sets the global
interrupt-enable bit: the returned SREG is `entry OR 0x80`, whose bit 7 is
always set, so interrupts are enabled on return even when they were
disabled at entry. -/
theorem UARTenable_resets_indices_and_sets_ibit (sreg : Nat) (s : Sys) :
    (UARTenable sreg s).2.UART_TxHead = 0 ∧
    (UARTenable sreg s).2.UART_TxTail = 0 ∧
    (UARTenable sreg s).2.UART_RxHead = 0 ∧
    (UARTenable sreg s).2.UART_RxTail = 0 ∧
    (UARTenable sreg s).1 = (sreg ||| 128) ∧
    ((UARTenable sreg s).1).testBit 7 = true ∧
    (UART1enable sreg s).2.UART1_TxHead = 0 ∧
    (UART1enable sreg s).2.UART1_TxTail = 0 ∧
    (UART1enable sreg s).2.UART1_RxHead = 0 ∧
    (UART1enable sreg s).2.UART1_RxTail = 0 ∧
    (UART1enable sreg s).1 = (sreg ||| 128) ∧
    ((UART1enable sreg s).1).testBit 7 = true := by
  refine ⟨rfl, rfl, rfl, rfl, rfl, ?_, rfl, rfl, rfl, rfl, rfl, ?_⟩ <;>
    · simp only [UARTenable, UART1enable, Nat.testBit_or, Bool.or_eq_true]
      exact Or.inr (by decide)

/-- Claim C5: for every capacity, classification and data byte, the
channel-0 receive-complete handler leaves the module variable
`UART_LastRxError` exactly as it was: the active code computes the
framing/overrun classification only into a local and never stores it, so
the error latch of channel 0 is never updated (the channel-1 handler does
store its classification into `UART1_LastRxError`). -/
theorem isr_uart0_receive_never_updates_error_latch
    (NR lastRxError data : Nat) (s : Sys) :
    (isr_uart0_receive NR lastRxError data s).UART_LastRxError
      = s.UART_LastRxError := by
  unfold isr_uart0_receive uart0_rxpush
  dsimp only
  split <;> split <;> rfl

/-- A state where channel 1 has room in its receive buffer
(head 0, tail 2, capacity 4) and both receive buffers hold known bytes. -/
def crossBufState : Sys :=
  ⟨[], [1, 2, 3, 4], 0, 0, 0, 0, 0, 0,
   [], [5, 6, 7, 8], 0, 0, 0, 2, 0, 0, false, false, [], []⟩

/-- Claim C6: the channel-1 receive handler evaluated at a framing-error
firing (classification 4, data byte 65) with room in its buffer: it
advances `UART1_RxHead`, but stores the sentinel `X` (88) into
`UART_RxBuf` — the channel-0 buffer — leaving its own `UART1_RxBuf`
untouched, the opposite of what the claim states for both buffers. -/
theorem isr_uart1_receive_writes_wrong_buffer_eval :
    (isr_uart1_receive 4 4 65 crossBufState).UART1_RxHead = 1 ∧
    (isr_uart1_receive 4 4 65 crossBufState).UART1_RxBuf
      = crossBufState.UART1_RxBuf ∧
    (isr_uart1_receive 4 4 65 crossBufState).UART_RxBuf = [1, 88, 3, 4] ∧
    (isr_uart1_receive 4 4 65 crossBufState).UART_RxBuf
      ≠ crossBufState.UART_RxBuf ∧
    (isr_uart1_receive 4 4 65 crossBufState).UART1_LastRxError = 4 := by
  decide

/-- A freshly opened channel 0: indices zero, transmit interrupt
disabled, buffers (capacity 32, the usual `uart.h` setting) zeroed,
nothing yet written to the data register. -/
def freshTxState : Sys :=
  ⟨List.replicate 32 0, List.replicate 32 0, 0, 0, 0, 0, 0, 0,
   [], [], 0, 0, 0, 0, 0, 0, false, false, [], []⟩

/-- The state after `write(H)`, `write(i)` and two firings of the
channel-0 transmit-ready interrupt on the fresh channel. -/
def afterTwoFirings : Sys :=
  isr_uart0_transmit 32 (isr_uart0_transmit 32
    (uart_putc 32 105 (uart_putc 32 72 freshTxState)))

/-- Claim C7 (as stated is false): after `write(H)`, `write(i)` and two
transmit-interrupt firings the data register has received `H` (72) then
`i` (105) and the transmit buffer is empty, but the transmit-ready
interrupt enable bit is still set, not cleared: the handler only disables
it on a firing that finds the buffer already empty. -/
theorem two_tx_firings_leave_udrie_set_cex :
    afterTwoFirings.UDR0 = [72, 105] ∧
    afterTwoFirings.UART_TxHead = afterTwoFirings.UART_TxTail ∧
    afterTwoFirings.UDRIE0 = true := by
  decide

/-- Claim C7 (amended): on the fresh channel, `write(H)`, `write(i)` and
two transmit-interrupt firings deliver exactly 72 then 105 to the data
register and empty the transmit buffer, but leave the transmit-ready
interrupt enabled; the third firing pops the empty buffer, writes nothing
further to the data register, and clears the interrupt-enable bit. -/
theorem tx_scenario_third_firing_disables_udrie :
    afterTwoFirings.UDR0 = [72, 105] ∧
    afterTwoFirings.UART_TxHead = afterTwoFirings.UART_TxTail ∧
    afterTwoFirings.UDRIE0 = true ∧
    (isr_uart0_transmit 32 afterTwoFirings).UDR0 = [72, 105] ∧
    (isr_uart0_transmit 32 afterTwoFirings).UDRIE0 = false := by
  decide

/-- A state whose receive buffers hold queued data on both channels:
heads at 3, tails at 1. -/
def flushState : Sys :=
  ⟨[], [], 0, 0, 3, 1, 0, 0, [], [], 0, 0, 3, 1, 0, 0, false, false, [], []⟩

/-- Claim C8 (as stated is false): `uart_flush` executes
`UART_RxHead = UART_RxTail`, not `tail = head`: at head 3, tail 1 it
overwrites the producer-owned head with 1 and leaves tail at 1, rather
than leaving head at 3 and setting tail to 3. -/
theorem uart_flush_moves_head_cex :
    flushState.UART_RxHead = 3 ∧
    (uart_flush flushState).UART_RxHead = 1 ∧
    (uart_flush flushState).UART_RxTail = 1 ∧
    (uart_flush flushState).UART_RxTail ≠ flushState.UART_RxHead := by
  decide

/-- Claim C8 (amended): for every state, `uart_flush` / `uart1_flush`
discard all queued-but-unread bytes by setting `head = tail`: the
consumer-owned tail is left unchanged and the producer-owned head is
overwritten with it, the buffer is empty (head == tail) afterward, and
flushing twice in a row yields the same state as flushing once. -/
theorem uart_flush_sets_head_to_tail_idempotent (s : Sys) :
    (uart_flush s).UART_RxHead = s.UART_RxTail ∧
    (uart_flush s).UART_RxTail = s.UART_RxTail ∧
    (uart_flush s).UART_RxHead = (uart_flush s).UART_RxTail ∧
    uart_flush (uart_flush s) = uart_flush s ∧
    (uart1_flush s).UART1_RxHead = s.UART1_RxTail ∧
    (uart1_flush s).UART1_RxTail = s.UART1_RxTail ∧
    (uart1_flush s).UART1_RxHead = (uart1_flush s).UART1_RxTail ∧
    uart1_flush (uart1_flush s) = uart1_flush s :=
  ⟨rfl, rfl, rfl, rfl, rfl, rfl, rfl, rfl⟩

/-- Events on the channel-0 receive path: a receive-interrupt push of a
byte into the ring buffer, or a foreground call to the line-assembly
`uart_read`. -/
inductive RxEvent where
  | push (b : Nat)
  | fgread

/-- Run a sequence of receive-path events against an accumulator and the
module state: `push b` performs `uart0_rxpush b` (the effect of a clean
receive interrupt), `fgread` performs `uart_read`. -/
def runUart0Read (NR : Nat) : List RxEvent → UART × Sys → UART × Sys
  | [], us => us
  | RxEvent.push b :: es, us => runUart0Read NR es (us.1, (uart0_rxpush NR b us.2).2)
  | RxEvent.fgread :: es, us => runUart0Read NR es (uart_read NR us.1 us.2)

/-- Eight rounds of one interrupt push of byte 65 followed by one
`uart_read` call. -/
def lineEvents : List RxEvent :=
  (List.replicate 8 [RxEvent.push 65, RxEvent.fgread]).flatten

/-- An accumulator with cursor 0 whose `msg` cells all hold the marker 77,
so that any write is visible. -/
def lineAcc0 : UART := ⟨0, fun _ => 77⟩

/-- An empty channel-0 receive buffer of capacity 8. -/
def lineState0 : Sys :=
  ⟨[], List.replicate 8 0, 0, 0, 0, 0, 0, 0,
   [], [], 0, 0, 0, 0, 0, 0, false, false, [], []⟩

/-- The accumulator and state after running the eight push/read rounds. -/
def lineFinal : UART × Sys := runUart0Read 8 lineEvents (lineAcc0, lineState0)

/-- Claim C9: with buffer capacity 8 (bound `UART_RX_BUFFER_MASK` = 7),
eight alternating interrupt-push/`uart_read` rounds drive the write
cursor to 8, strictly past the bound, and the eighth call writes the
null terminator into `msg[8]` (initially the marker 77): the active
`uart_read` has no bound check at all, so the cursor never wraps and the
accumulator is written outside `[0, 7]`. -/
theorem uart_read_index_exceeds_bound_eval :
    lineFinal.1.index = 8 ∧
    lineAcc0.msg 8 = 77 ∧
    lineFinal.1.msg 8 = 0 ∧
    lineFinal.1.msg 7 = 65 ∧
    8 - 1 < lineFinal.1.index := by
  decide

/-- A channel-0 state whose transmit buffer (capacity 4) holds the null
byte at the tail with one more byte (66) queued behind it, and whose
receive buffer likewise has a null byte at the tail with a byte queued
behind. -/
def zeroAtTailState : Sys :=
  ⟨[0, 66, 0, 0], [0, 9, 0, 0], 2, 0, 2, 0, 0, 0,
   [], [], 0, 0, 0, 0, 0, 0, true, false, [], []⟩

/-- Claim C10: a queued 0x00 byte is indistinguishable from an empty
buffer at the channel-0 pop interface.  For every power-of-two capacity,
every state `s` whose transmit and receive buffers are nonempty with the
byte 0x00 at their tails (with a further transmit byte queued behind),
and every empty-buffer state `e`: `uart0_txpop` and `uart0_rxpop` return
0 on both `s` and `e`; and the transmit-ready interrupt at `s` pops the
byte (advancing the tail), writes nothing to the hardware data register,
and clears the transmit-interrupt-enable bit even though the buffer is
still nonempty. -/
theorem uart0_pop_zero_byte_indistinguishable
    (NT NR kT : Nat) (s e : Sys)
    (hNT : NT = 2 ^ kT)
    (hneT : s.UART_TxTail ≠ s.UART_TxHead)
    (h0T : s.UART_TxBuf.getD s.UART_TxTail 0 = 0)
    (hmore : (s.UART_TxTail + 1) % NT ≠ s.UART_TxHead)
    (hneR : s.UART_RxTail ≠ s.UART_RxHead)
    (h0R : s.UART_RxBuf.getD s.UART_RxTail 0 = 0)
    (heT : e.UART_TxTail = e.UART_TxHead)
    (heR : e.UART_RxTail = e.UART_RxHead) :
    (uart0_txpop NT s).1 = 0 ∧
    (uart0_txpop NT e).1 = 0 ∧
    (uart0_rxpop NR s).1 = 0 ∧
    (uart0_rxpop NR e).1 = 0 ∧
    (isr_uart0_transmit NT s).UART_TxTail = (s.UART_TxTail + 1) % NT ∧
    (isr_uart0_transmit NT s).UDR0 = s.UDR0 ∧
    (isr_uart0_transmit NT s).UDRIE0 = false ∧
    (isr_uart0_transmit NT s).UART_TxTail ≠ (isr_uart0_transmit NT s).UART_TxHead := by
  have hmask : (s.UART_TxTail + 1) &&& (NT - 1) = (s.UART_TxTail + 1) % NT := by
    subst hNT; exact Nat.and_pow_two_sub_one_eq_mod _ _
  have h0T' : s.UART_TxBuf[s.UART_TxTail]?.getD 0 = 0 := by
    simpa [List.getD] using h0T
  have h0R' : s.UART_RxBuf[s.UART_RxTail]?.getD 0 = 0 := by
    simpa [List.getD] using h0R
  refine ⟨?_, ?_, ?_, ?_, ?_, ?_, ?_, ?_⟩ <;>
    simp [uart0_txpop, uart0_rxpop, isr_uart0_transmit,
      hneT, hneR, heT, heR, h0T', h0R', hmask, hmore]

/-- Witness for the C10 theorem at the concrete states: capacity 4, null
byte at both tails of `zeroAtTailState` with byte 66 still queued in the
transmit buffer, and the all-empty `zeroState`. -/
theorem uart0_pop_zero_byte_indistinguishable_witness :
    (uart0_txpop 4 zeroAtTailState).1 = 0 ∧
    (uart0_txpop 4 zeroState).1 = 0 ∧
    (uart0_rxpop 4 zeroAtTailState).1 = 0 ∧
    (uart0_rxpop 4 zeroState).1 = 0 ∧
    (isr_uart0_transmit 4 zeroAtTailState).UART_TxTail
      = (zeroAtTailState.UART_TxTail + 1) % 4 ∧
    (isr_uart0_transmit 4 zeroAtTailState).UDR0 = zeroAtTailState.UDR0 ∧
    (isr_uart0_transmit 4 zeroAtTailState).UDRIE0 = false ∧
    (isr_uart0_transmit 4 zeroAtTailState).UART_TxTail
      ≠ (isr_uart0_transmit 4 zeroAtTailState).UART_TxHead :=
  uart0_pop_zero_byte_indistinguishable 4 4 2 zeroAtTailState zeroState
    rfl (by decide) (by decide) (by decide) (by decide) (by decide)
    (by decide) (by decide)
